import Mathlib

/-!
Verification of `m4a_to_mp4_converter.py` (repository pilwonhur/m4a2mp4).

The program is a sequence of external-process invocations (a toolchain
availability check, a duration probe, an encode) wrapped in file-existence
checks, a directory walk and CLI glue.  We embed it shallowly: all external
effects are supplied by an `Env` record (filesystem existence, directory
listing, probe outcome, encode outcome, toolchain availability), and each
Python function becomes a pure Lean function over `Env` that additionally
returns the trace of external invocations it performed, as a `List Event`.

Durations are modelled as rationals (`Rat`): the Python code parses the
probed duration with `float(...)` and passes the value through to the encode
command without any arithmetic, so the exact numeric carrier is irrelevant
to every property proved here.
-/

/-- Outcome of the raw `ffprobe` subprocess run inside `get_audio_duration`,
as distinguished by the Python code's failure modes: the subprocess fails
(`CalledProcessError` / `FileNotFoundError`), its stdout is not parseable
JSON (`json.loads` raises), the parsed object lacks `format.duration` or the
field does not parse as a float (`KeyError` / `ValueError`), or it succeeds
with a duration value.  All exceptions are caught by the single
`except Exception` handler. -/
inductive ProbeRaw where
  | procFailure
  | malformedJson
  | missingDuration
  | ok (d : Rat)
deriving DecidableEq, Repr

/-- Parameters of the `ffmpeg` encode invocation built by
`convert_m4a_to_mp4` (lines 69-79 of the source): the lavfi synthetic video
source `color=c={background_color}:size={resolution}:duration={duration}`,
the audio input file, and the output file.  The remaining arguments
(`-c:v libx264 -c:a aac -shortest -y`) are fixed constants of the command. -/
structure EncodeCall where
  background_color : String
  resolution : String
  duration : Rat
  audio_input : String
  output_file : String
deriving DecidableEq, Repr

/-- Result of the encode subprocess: exit status (zero / non-zero) and the
captured stderr text. -/
structure EncodeOutcome where
  exitZero : Bool
  stderr : String
deriving DecidableEq, Repr

/-- The external world as seen by the program: filesystem existence, the
directory listing used by `Path(dir).glob`, the outcome of the `ffprobe`
subprocess per file, the outcome of the `ffmpeg` encode per parameter set,
and whether `ffmpeg -version` succeeds. -/
structure Env where
  pathExists : String → Bool
  listDir : String → List String
  probe : String → ProbeRaw
  encode : EncodeCall → EncodeOutcome
  ffmpegAvailable : Bool

/-- External invocations performed by the program, in order. -/
inductive Event where
  | checkFfmpeg
  | probe (file : String)
  | encode (call : EncodeCall)
  | listColors (colors : List String)
deriving DecidableEq, Repr

/-- `check_ffmpeg` (source lines 14-20): runs `ffmpeg -version` and reports
whether it succeeded; any failure (missing executable, non-zero exit) yields
`False`. -/
def check_ffmpeg (env : Env) : Bool :=
  env.ffmpegAvailable

/-- `get_audio_duration` (source lines 22-34): runs `ffprobe`, parses its
JSON output and extracts `format.duration` as a float; every failure mode is
caught by `except Exception` and mapped to `None`. -/
def get_audio_duration (env : Env) (audio_file : String) : Option Rat :=
  match env.probe audio_file with
  | ProbeRaw.procFailure => none
  | ProbeRaw.malformedJson => none
  | ProbeRaw.missingDuration => none
  | ProbeRaw.ok d => some d

/-- Drop a trailing extension from a reversed file name, given that the
character list starts strictly after the candidate dot; returns `none` when
no dot qualifies.  Mirrors Python `PurePath.suffix`: the suffix is
`name[i:]` for `i = name.rfind('.')` only when `0 < i < len(name) - 1`.
Scanning the reversed name, the first dot found is the last dot of the
name; the remainder being nonempty is exactly `0 < i`. -/
def dropExtRevAux : List Char → Option (List Char)
  | [] => none
  | c :: cs => if c = '.' then (if cs.isEmpty then none else some cs) else dropExtRevAux cs

/-- Drop a trailing extension from a reversed file name.  The extra head
case rules out a dot in the last position of the name (`i = len(name) - 1`),
which Python treats as no suffix. -/
def dropExtRev : List Char → Option (List Char)
  | [] => none
  | c :: cs => if c = '.' then none else dropExtRevAux cs

/-- Python `PurePath.with_suffix` applied to the final path component
(`input_path.with_suffix('.mp4')`, source line 55): replace the name's
suffix when it has one, else append.  Modelled on already-normalized path
strings (the program never relies on `pathlib` normalization). -/
def with_suffix (path : String) (suffix : String) : String :=
  let r := path.data.reverse
  let nameRev := r.takeWhile (fun c => c ≠ '/')
  let dirRev := r.dropWhile (fun c => c ≠ '/')
  let stemRev :=
    match dropExtRev nameRev with
    | none => nameRev
    | some s => s
  String.mk ((suffix.data.reverse ++ stemRev ++ dirRev).reverse)

/-- Python `PurePath.stem` of a bare file name (`m4a_file.stem`, source
line 125): the name without its suffix. -/
def python_stem (name : String) : String :=
  match dropExtRev name.data.reverse with
  | none => name
  | some s => String.mk s.reverse

/-- The output path used by `convert_m4a_to_mp4` (source lines 52-55):
the explicit output when supplied, else the input with its suffix replaced
by `.mp4`. -/
def derived_output (input_file : String) (output_file : Option String) : String :=
  match output_file with
  | some o => o
  | none => with_suffix input_file ".mp4"

/-- Result of one run of the conversion pipeline.  The Python function
returns only `True`/`False` and prints diagnostics; each constructor below
corresponds to one distinct return site of `convert_m4a_to_mp4`:
`inputMissing` (line 50), `durationUnavailable` (line 61), `success` with
the output path (lines 84-85), `encodeFailed` carrying the tool's stderr
(lines 86-89). -/
inductive ConvResult where
  | inputMissing
  | durationUnavailable
  | encodeFailed (stderr : String)
  | success (output : String)
deriving DecidableEq, Repr

/-- The boolean the Python function actually returns. -/
def ConvResult.isSuccess : ConvResult → Bool
  | ConvResult.success _ => true
  | _ => false

/-- `convert_m4a_to_mp4` (source lines 36-89): check the input exists,
derive the output path, probe the duration, then run the encode; returns
the result together with the trace of external invocations. -/
def convert_m4a_to_mp4 (env : Env) (input_file : String) (output_file : Option String)
    (background_color : String) (resolution : String) : ConvResult × List Event :=
  if env.pathExists input_file then
    let out := derived_output input_file output_file
    match get_audio_duration env input_file with
    | none => (ConvResult.durationUnavailable, [Event.probe input_file])
    | some d =>
      let call : EncodeCall :=
        ⟨background_color, resolution, d, input_file, out⟩
      let o := env.encode call
      if o.exitZero then
        (ConvResult.success out, [Event.probe input_file, Event.encode call])
      else
        (ConvResult.encodeFailed o.stderr, [Event.probe input_file, Event.encode call])
  else
    (ConvResult.inputMissing, [])

/-- The body of the `for m4a_file in m4a_files` loop of `batch_convert`
(source lines 124-131), as a recursion over the matched file names: each
file gets output path `{output_directory}/{stem}.mp4` and one run of
`convert_m4a_to_mp4`; the counters, the per-file results (in processing
order) and the concatenated event trace are returned. -/
def batch_loop (env : Env) (input_directory : String) (output_directory : String)
    (background_color : String) (resolution : String) :
    List String → (Nat × Nat) × List (String × ConvResult) × List Event
  | [] => ((0, 0), [], [])
  | name :: rest =>
    let path := input_directory ++ "/" ++ name
    let out_file := output_directory ++ "/" ++ python_stem name ++ ".mp4"
    let conv := convert_m4a_to_mp4 env path (some out_file) background_color resolution
    let prev := batch_loop env input_directory output_directory background_color resolution rest
    ((if conv.1.isSuccess then prev.1.1 + 1 else prev.1.1,
      if conv.1.isSuccess then prev.1.2 else prev.1.2 + 1),
     (path, conv.1) :: prev.2.1, conv.2 ++ prev.2.2)

/-- Whether a file name matches the fnmatch pattern `*.m4a`, i.e. ends in
`.m4a`. -/
def matches_m4a (name : String) : Bool :=
  match name.data.reverse with
  | 'a' :: '4' :: 'm' :: '.' :: _ => true
  | _ => false

/-- The file names matched by `Path(input_directory).glob('*.m4a')`
(source line 113): the directory listing filtered to names ending in
`.m4a`, in listing order — the code applies no sort. -/
def m4a_files (env : Env) (input_directory : String) : List String :=
  (env.listDir input_directory).filter matches_m4a

/-- `batch_convert` (source lines 91-136): check the directory exists,
default the output directory to the input directory, glob `*.m4a`, then
convert each match, counting successes and failures.  The Python function
returns `None` in every case; the first component models the printed
summary counters (`some` exactly when the summary is printed, i.e. when at
least one file matched). -/
def batch_convert (env : Env) (input_directory : String) (output_directory : Option String)
    (background_color : String) (resolution : String) :
    Option (Nat × Nat) × List (String × ConvResult) × List Event :=
  if env.pathExists input_directory then
    let out_dir :=
      match output_directory with
      | none => input_directory
      | some o => o
    let files := m4a_files env input_directory
    if files.isEmpty then (none, [], [])
    else
      let b := batch_loop env input_directory out_dir background_color resolution files
      (some b.1, b.2.1, b.2.2)
  else
    (none, [], [])

/-- The parsed CLI arguments (source lines 153-163). -/
structure Args where
  input : Option String
  output : Option String
  directory : Option String
  color : String
  resolution : String
  list_colors : Bool

/-- The fixed color list printed by `--list-colors` (source line 168). -/
def available_colors : List String :=
  ["black", "white", "red", "green", "blue", "yellow", "cyan", "magenta", "gray", "grey"]

/-- `main` after argument parsing (source lines 165-199): `--list-colors`
prints the color list and returns; otherwise `check_ffmpeg` gates
everything (exit 1 with installation guidance when unavailable); `-d`
triggers batch mode and then returns; no positional input prints help and
returns; a missing single-file input exits 1; otherwise the single-file
conversion runs and a failure exits 1.  Returns the process exit code and
the trace of external invocations (plus the `--list-colors` output as an
event). -/
def main_model (env : Env) (args : Args) : Nat × List Event :=
  if args.list_colors then
    (0, [Event.listColors available_colors])
  else if check_ffmpeg env = false then
    (1, [Event.checkFfmpeg])
  else
    match args.directory with
    | some d =>
      let b := batch_convert env d args.output args.color args.resolution
      (0, Event.checkFfmpeg :: b.2.2)
    | none =>
      match args.input with
      | none => (0, [Event.checkFfmpeg])
      | some f =>
        if env.pathExists f = false then
          (1, [Event.checkFfmpeg])
        else
          let conv := convert_m4a_to_mp4 env f args.output args.color args.resolution
          (if conv.1.isSuccess then 0 else 1, Event.checkFfmpeg :: conv.2)

/-- Environment in which no path exists. -/
def env_missing : Env :=
  ⟨fun _ => false, fun _ => [], fun _ => ProbeRaw.ok 7, fun _ => ⟨true, ""⟩, true⟩

/-- Environment in which every path exists but the ffprobe subprocess fails. -/
def env_probe_down : Env :=
  ⟨fun _ => true, fun _ => [], fun _ => ProbeRaw.procFailure, fun _ => ⟨true, ""⟩, true⟩

/-- Environment in which probing succeeds (duration 7) but every encode
exits non-zero with stderr text `boom`. -/
def env_encode_down : Env :=
  ⟨fun _ => true, fun _ => [], fun _ => ProbeRaw.ok 7, fun _ => ⟨false, "boom"⟩, true⟩

/-- Environment in which everything succeeds; every probe reports
duration 7. -/
def env_all_ok : Env :=
  ⟨fun _ => true, fun _ => [], fun _ => ProbeRaw.ok 7, fun _ => ⟨true, ""⟩, true⟩

/-- Environment for batch runs: the listing of every directory is
`["b.m4a", "a.m4a", "notes.txt", "c.m4a"]` (three matching files, one
non-matching, unsorted), the probe fails for `dir/a.m4a` and succeeds
elsewhere, and every encode succeeds. -/
def env_batch_demo : Env :=
  ⟨fun _ => true, fun _ => ["b.m4a", "a.m4a", "notes.txt", "c.m4a"],
   fun f => if f == "dir/a.m4a" then ProbeRaw.procFailure else ProbeRaw.ok 7,
   fun _ => ⟨true, ""⟩, true⟩

/-- Environment in which `ffmpeg -version` fails. -/
def env_no_ffmpeg : Env :=
  ⟨fun _ => true, fun _ => [], fun _ => ProbeRaw.ok 7, fun _ => ⟨true, ""⟩, false⟩

/-- Replacing the `.m4a` extension: for any path `s ++ ".m4a"` whose final
component is nonempty apart from the extension, `with_suffix` yields
`s ++ ".mp4"`, exactly as `Path.with_suffix('.mp4')` does. -/
theorem with_suffix_m4a (s : String)
    (h : s.data.reverse.takeWhile (fun c => c ≠ '/') ≠ []) :
    with_suffix (s ++ ".m4a") ".mp4" = s ++ ".mp4" := by
  set tw := s.data.reverse.takeWhile (fun c => c ≠ '/') with htw
  set dw := s.data.reverse.dropWhile (fun c => c ≠ '/') with hdw
  have e2 : (s ++ ".m4a").data.reverse = 'a' :: '4' :: 'm' :: '.' :: s.data.reverse := by
    rw [String.data_append]
    show (s.data ++ ['.', 'm', '4', 'a']).reverse = _
    rw [List.reverse_append]
    rfl
  have htake : ((s ++ ".m4a").data.reverse).takeWhile (fun c => c ≠ '/')
      = 'a' :: '4' :: 'm' :: '.' :: tw := by
    rw [e2, List.takeWhile_cons_of_pos (by decide), List.takeWhile_cons_of_pos (by decide),
      List.takeWhile_cons_of_pos (by decide), List.takeWhile_cons_of_pos (by decide)]
  have hdrop : ((s ++ ".m4a").data.reverse).dropWhile (fun c => c ≠ '/') = dw := by
    rw [e2, List.dropWhile_cons_of_pos (by decide), List.dropWhile_cons_of_pos (by decide),
      List.dropWhile_cons_of_pos (by decide), List.dropWhile_cons_of_pos (by decide)]
  have hext : dropExtRev ('a' :: '4' :: 'm' :: '.' :: tw) = some tw := by
    cases tcs : tw with
    | nil => exact absurd tcs h
    | cons a as => simp [dropExtRev, dropExtRevAux, tcs]
  have hcore : dw.reverse ++ tw.reverse = s.data := by
    rw [← List.reverse_append, htw, hdw, List.takeWhile_append_dropWhile, List.reverse_reverse]
  apply String.ext
  simp only [with_suffix, htake, hdrop, hext]
  show (['4', 'p', 'm', '.'] ++ tw ++ dw).reverse = (s ++ ".mp4").data
  rw [String.data_append, List.reverse_append, List.reverse_append]
  show dw.reverse ++ (tw.reverse ++ ['.', 'm', 'p', '4']) = s.data ++ ['.', 'm', 'p', '4']
  rw [← List.append_assoc, hcore]

/-- C1: for every input path that does not exist, `convert_m4a_to_mp4`
returns the input-missing failure and its trace is empty, so neither the
duration probe nor the encode is invoked. -/
theorem convert_inputMissing_skips_probe_and_encode (env : Env) (input_file : String)
    (output_file : Option String) (background_color resolution : String)
    (h : env.pathExists input_file = false) :
    convert_m4a_to_mp4 env input_file output_file background_color resolution
      = (ConvResult.inputMissing, []) := by
  simp [convert_m4a_to_mp4, h]

/-- C1 witness: a concrete environment without the input file. -/
theorem convert_inputMissing_skips_probe_and_encode_witness :
    convert_m4a_to_mp4 env_missing "song.m4a" none "black" "1920x1080"
      = (ConvResult.inputMissing, []) :=
  convert_inputMissing_skips_probe_and_encode env_missing "song.m4a" none "black" "1920x1080" rfl

/-- C2: whenever the raw probe fails in any of its three modes (process
failure, malformed metadata, missing duration field), `get_audio_duration`
returns `none`, and the pipeline then fails with the duration-unavailable
error; its trace is exactly the probe call, so the encode is never invoked
and no default duration is substituted. -/
theorem convert_durationUnavailable_skips_encode (env : Env) (input_file : String)
    (output_file : Option String) (background_color resolution : String)
    (hex : env.pathExists input_file = true)
    (hp : env.probe input_file = ProbeRaw.procFailure ∨
          env.probe input_file = ProbeRaw.malformedJson ∨
          env.probe input_file = ProbeRaw.missingDuration) :
    get_audio_duration env input_file = none ∧
    convert_m4a_to_mp4 env input_file output_file background_color resolution
      = (ConvResult.durationUnavailable, [Event.probe input_file]) := by
  have hnone : get_audio_duration env input_file = none := by
    rcases hp with h | h | h <;> simp [get_audio_duration, h]
  exact ⟨hnone, by simp [convert_m4a_to_mp4, hex, hnone]⟩

/-- C2 witness: a concrete environment whose probe subprocess fails. -/
theorem convert_durationUnavailable_skips_encode_witness :
    get_audio_duration env_probe_down "song.m4a" = none ∧
    convert_m4a_to_mp4 env_probe_down "song.m4a" none "black" "1920x1080"
      = (ConvResult.durationUnavailable, [Event.probe "song.m4a"]) :=
  convert_durationUnavailable_skips_encode env_probe_down "song.m4a" none "black" "1920x1080"
    rfl (Or.inl rfl)

/-- C3: for every existing input whose probed duration is `d`, the pipeline's
trace is exactly the probe call followed by one encode call whose synthetic
video duration is exactly `d` and whose color and resolution are the
requested ones, verbatim (whatever the encode's outcome). -/
theorem convert_encode_uses_probed_duration (env : Env) (input_file : String)
    (output_file : Option String) (background_color resolution : String) (d : Rat)
    (hex : env.pathExists input_file = true)
    (hp : env.probe input_file = ProbeRaw.ok d) :
    (convert_m4a_to_mp4 env input_file output_file background_color resolution).2
      = [Event.probe input_file,
         Event.encode ⟨background_color, resolution, d, input_file,
                       derived_output input_file output_file⟩] := by
  have hd : get_audio_duration env input_file = some d := by
    simp [get_audio_duration, hp]
  by_cases he : (env.encode ⟨background_color, resolution, d, input_file,
      derived_output input_file output_file⟩).exitZero <;>
    simp [convert_m4a_to_mp4, hex, hd, he]

/-- C3 witness: concrete run with probed duration 7. -/
theorem convert_encode_uses_probed_duration_witness :
    (convert_m4a_to_mp4 env_all_ok "song.m4a" none "black" "1920x1080").2
      = [Event.probe "song.m4a",
         Event.encode ⟨"black", "1920x1080", 7, "song.m4a", "song.mp4"⟩] := by
  have h := convert_encode_uses_probed_duration env_all_ok "song.m4a" none "black" "1920x1080"
    7 rfl rfl
  rw [h]
  decide

/-- C4: with an existing input and probed duration `d`, a non-zero encode
exit makes the pipeline fail with the encode-failure error carrying the
tool's stderr, and a zero exit makes it report success with the final
output path. -/
theorem convert_encode_exit_determines_result (env : Env) (input_file : String)
    (output_file : Option String) (background_color resolution : String) (d : Rat)
    (hex : env.pathExists input_file = true)
    (hp : env.probe input_file = ProbeRaw.ok d) :
    ((env.encode ⟨background_color, resolution, d, input_file,
        derived_output input_file output_file⟩).exitZero = false →
      (convert_m4a_to_mp4 env input_file output_file background_color resolution).1
        = ConvResult.encodeFailed
            (env.encode ⟨background_color, resolution, d, input_file,
              derived_output input_file output_file⟩).stderr) ∧
    ((env.encode ⟨background_color, resolution, d, input_file,
        derived_output input_file output_file⟩).exitZero = true →
      (convert_m4a_to_mp4 env input_file output_file background_color resolution).1
        = ConvResult.success (derived_output input_file output_file)) := by
  have hd : get_audio_duration env input_file = some d := by
    simp [get_audio_duration, hp]
  constructor <;> intro he <;> simp [convert_m4a_to_mp4, hex, hd, he]

/-- C4 witness: a failing encode carries stderr `boom`; a succeeding encode
reports the final output path. -/
theorem convert_encode_exit_determines_result_witness :
    (convert_m4a_to_mp4 env_encode_down "song.m4a" none "black" "1920x1080").1
      = ConvResult.encodeFailed "boom" ∧
    (convert_m4a_to_mp4 env_all_ok "song.m4a" none "black" "1920x1080").1
      = ConvResult.success "song.mp4" := by
  constructor
  · exact (convert_encode_exit_determines_result env_encode_down "song.m4a" none
      "black" "1920x1080" 7 rfl rfl).1 rfl
  · have h := (convert_encode_exit_determines_result env_all_ok "song.m4a" none
      "black" "1920x1080" 7 rfl rfl).2 rfl
    rw [h]
    decide

/-- C5: an explicitly supplied output path is used verbatim; with no
explicit output, an input `s ++ ".m4a"` (nonempty final component) derives
`s ++ ".mp4"`; and on a successful run the pipeline reports exactly this
derived path. -/
theorem output_path_derivation :
    (∀ (input_file o : String), derived_output input_file (some o) = o) ∧
    (∀ s : String, s.data.reverse.takeWhile (fun c => c ≠ '/') ≠ [] →
        derived_output (s ++ ".m4a") none = s ++ ".mp4") ∧
    (∀ (env : Env) (input_file : String) (output_file : Option String)
        (background_color resolution : String) (d : Rat),
        env.pathExists input_file = true →
        env.probe input_file = ProbeRaw.ok d →
        (env.encode ⟨background_color, resolution, d, input_file,
            derived_output input_file output_file⟩).exitZero = true →
        (convert_m4a_to_mp4 env input_file output_file background_color resolution).1
          = ConvResult.success (derived_output input_file output_file)) := by
  refine ⟨fun _ _ => rfl, fun s h => with_suffix_m4a s h, ?_⟩
  intro env input_file output_file background_color resolution d hex hp he
  have hd : get_audio_duration env input_file = some d := by
    simp [get_audio_duration, hp]
  simp [convert_m4a_to_mp4, hex, hd, he]

/-- C5 witness: `song.m4a` with no explicit output derives `song.mp4`; an
explicit `out.mp4` is used verbatim; a successful concrete run reports the
derived path. -/
theorem output_path_derivation_witness :
    derived_output "song.m4a" (some "out.mp4") = "out.mp4" ∧
    derived_output "song.m4a" none = "song.mp4" ∧
    (convert_m4a_to_mp4 env_all_ok "song.m4a" (some "out.mp4") "black" "1920x1080").1
      = ConvResult.success "out.mp4" := by
  refine ⟨output_path_derivation.1 "song.m4a" "out.mp4", ?_, ?_⟩
  · have h := output_path_derivation.2.1 "song" (by decide)
    exact h
  · exact output_path_derivation.2.2 env_all_ok "song.m4a" (some "out.mp4")
      "black" "1920x1080" 7 rfl rfl rfl

/-- Loop invariant of `batch_convert`: over any list of matched names the
counters sum to the number of names, and the per-file results cover exactly
the matched paths in order. -/
theorem batch_loop_spec (env : Env) (dir out bc res : String) (files : List String) :
    (batch_loop env dir out bc res files).1.1 + (batch_loop env dir out bc res files).1.2
      = files.length ∧
    (batch_loop env dir out bc res files).2.1.map Prod.fst
      = files.map (fun n => dir ++ "/" ++ n) := by
  induction files with
  | nil => simp [batch_loop]
  | cons name rest ih =>
    obtain ⟨h1, h2⟩ := ih
    refine ⟨?_, ?_⟩
    · by_cases hs : (convert_m4a_to_mp4 env (dir ++ "/" ++ name)
          (some (out ++ "/" ++ python_stem name ++ ".mp4")) bc res).1.isSuccess <;>
        simp [batch_loop, hs] <;> omega
    · simp [batch_loop, h2]

/-- C6: over a directory whose listing holds some matching and some
non-matching names, batch mode attempts exactly one conversion per matching
file (whatever each file's outcome, so one failure never stops the rest),
and the printed summary satisfies `successful + failed = N` for `N` the
number of matching files. -/
theorem batch_summary_counts (env : Env) (input_directory : String)
    (output_directory : Option String) (background_color resolution : String)
    (hex : env.pathExists input_directory = true)
    (hne : m4a_files env input_directory ≠ []) :
    ∃ successful failed : Nat,
      (batch_convert env input_directory output_directory background_color resolution).1
        = some (successful, failed) ∧
      successful + failed = (m4a_files env input_directory).length ∧
      (batch_convert env input_directory output_directory background_color resolution).2.1.length
        = (m4a_files env input_directory).length ∧
      (batch_convert env input_directory output_directory background_color resolution).2.1.map
          Prod.fst
        = (m4a_files env input_directory).map (fun n => input_directory ++ "/" ++ n) := by
  have hne' : (m4a_files env input_directory).isEmpty = false := by
    cases hm : m4a_files env input_directory with
    | nil => exact absurd hm hne
    | cons a as => rfl
  rcases output_directory with _ | odir
  · have hspec := batch_loop_spec env input_directory input_directory
      background_color resolution (m4a_files env input_directory)
    have hlen := congrArg List.length hspec.2
    simp only [List.length_map] at hlen
    refine ⟨_, _, ?_, hspec.1, ?_, ?_⟩ <;>
      simp [batch_convert, hex, hne', hlen, hspec.2]
  · have hspec := batch_loop_spec env input_directory odir
      background_color resolution (m4a_files env input_directory)
    have hlen := congrArg List.length hspec.2
    simp only [List.length_map] at hlen
    refine ⟨_, _, ?_, hspec.1, ?_, ?_⟩ <;>
      simp [batch_convert, hex, hne', hlen, hspec.2]

/-- C6 witness: three matching files (`b.m4a`, `a.m4a`, `c.m4a`) and one
non-matching (`notes.txt`); the probe fails for `dir/a.m4a`, yet all three
are attempted and the summary counts sum to 3. -/
theorem batch_summary_counts_witness :
    ∃ successful failed : Nat,
      (batch_convert env_batch_demo "dir" none "black" "1920x1080").1
        = some (successful, failed) ∧
      successful + failed = (m4a_files env_batch_demo "dir").length ∧
      (batch_convert env_batch_demo "dir" none "black" "1920x1080").2.1.length
        = (m4a_files env_batch_demo "dir").length ∧
      (batch_convert env_batch_demo "dir" none "black" "1920x1080").2.1.map Prod.fst
        = (m4a_files env_batch_demo "dir").map (fun n => "dir" ++ "/" ++ n) :=
  batch_summary_counts env_batch_demo "dir" none "black" "1920x1080" rfl (by decide)

/-- C7 counterexample: with a glob listing `["b.m4a", "a.m4a", "notes.txt",
"c.m4a"]` the batch processes `dir/b.m4a` before `dir/a.m4a` — the listing
order — whereas sorting by file name would process
`["dir/a.m4a", "dir/b.m4a", "dir/c.m4a"]`.  The code applies no sort. -/
theorem batch_order_not_sorted :
    (batch_convert env_batch_demo "dir" none "black" "1920x1080").2.1.map Prod.fst
      = ["dir/b.m4a", "dir/a.m4a", "dir/c.m4a"] ∧
    (["dir/b.m4a", "dir/a.m4a", "dir/c.m4a"] : List String)
      ≠ ["dir/a.m4a", "dir/b.m4a", "dir/c.m4a"] := by
  constructor
  · decide
  · decide

/-- C7 amended: batch mode processes the matched files exactly in the
enumeration order of the directory listing (the glob result) — so the order
is deterministic given that listing, but the program applies no sort of its
own. -/
theorem batch_order_follows_listing (env : Env) (input_directory : String)
    (output_directory : Option String) (background_color resolution : String)
    (hex : env.pathExists input_directory = true) :
    (batch_convert env input_directory output_directory background_color resolution).2.1.map
        Prod.fst
      = (m4a_files env input_directory).map (fun n => input_directory ++ "/" ++ n) := by
  by_cases hne : (m4a_files env input_directory).isEmpty
  · have hm : m4a_files env input_directory = [] := by
      cases hml : m4a_files env input_directory with
      | nil => rfl
      | cons a as =>
        rw [hml] at hne
        simp at hne
    simp [batch_convert, hex, hm]
  · have hne' : (m4a_files env input_directory).isEmpty = false := by
      simpa using hne
    rcases output_directory with _ | odir
    · have hspec := batch_loop_spec env input_directory input_directory
        background_color resolution (m4a_files env input_directory)
      simp [batch_convert, hex, hne', hspec.2]
    · have hspec := batch_loop_spec env input_directory odir
        background_color resolution (m4a_files env input_directory)
      simp [batch_convert, hex, hne', hspec.2]

/-- C7 amended witness: concrete unsorted listing, processed in listing
order. -/
theorem batch_order_follows_listing_witness :
    (batch_convert env_batch_demo "dir" none "black" "1920x1080").2.1.map Prod.fst
      = (m4a_files env_batch_demo "dir").map (fun n => "dir" ++ "/" ++ n) :=
  batch_order_follows_listing env_batch_demo "dir" none "black" "1920x1080" rfl

/-- C8: with `--list-colors` the program prints the fixed color list and
exits 0; its trace holds no toolchain availability check, no probe and no
encode. -/
theorem list_colors_short_circuit (env : Env) (args : Args)
    (h : args.list_colors = true) :
    main_model env args = (0, [Event.listColors available_colors]) ∧
    available_colors = ["black", "white", "red", "green", "blue", "yellow",
      "cyan", "magenta", "gray", "grey"] ∧
    Event.checkFfmpeg ∉ (main_model env args).2 ∧
    (∀ f, Event.probe f ∉ (main_model env args).2) ∧
    (∀ call, Event.encode call ∉ (main_model env args).2) := by
  have hm : main_model env args = (0, [Event.listColors available_colors]) := by
    simp [main_model, h]
  refine ⟨hm, rfl, ?_, ?_, ?_⟩
  · simp [hm]
  · intro f; simp [hm]
  · intro call; simp [hm]

/-- C8 witness: `--list-colors` exits 0 even in an environment where the
toolchain is absent, showing the availability check is not consulted. -/
theorem list_colors_short_circuit_witness :
    main_model env_no_ffmpeg ⟨none, none, none, "black", "1920x1080", true⟩
      = (0, [Event.listColors available_colors]) :=
  (list_colors_short_circuit env_no_ffmpeg
    ⟨none, none, none, "black", "1920x1080", true⟩ rfl).1

/-- C9: the exit code is always 0 or 1; it is 1 exactly when (not in
`--list-colors` mode and) the toolchain is unavailable, or, in single-file
mode, the input is missing or the conversion fails; and when the toolchain
check fails the program exits 1 with the check as its only external
invocation, attempting no conversion. -/
theorem exit_code_contract (env : Env) (args : Args) :
    ((main_model env args).1 = 0 ∨ (main_model env args).1 = 1) ∧
    ((main_model env args).1 = 1 ↔
      args.list_colors = false ∧
        (check_ffmpeg env = false ∨
          (args.directory = none ∧
            ∃ f, args.input = some f ∧
              (env.pathExists f = false ∨
                (convert_m4a_to_mp4 env f args.output args.color args.resolution).1.isSuccess
                  = false)))) ∧
    (args.list_colors = false → check_ffmpeg env = false →
      main_model env args = (1, [Event.checkFfmpeg])) := by
  obtain ⟨inp, outp, dirp, col, res, lc⟩ := args
  cases lc with
  | true => simp [main_model]
  | false =>
    cases hav : env.ffmpegAvailable with
    | false => simp [main_model, check_ffmpeg, hav]
    | true =>
      cases dirp with
      | some d => simp [main_model, check_ffmpeg, hav]
      | none =>
        cases inp with
        | none => simp [main_model, check_ffmpeg, hav]
        | some f =>
          cases hpe : env.pathExists f with
          | false =>
            have hconv : convert_m4a_to_mp4 env f outp col res
                = (ConvResult.inputMissing, []) := by
              simp [convert_m4a_to_mp4, hpe]
            simp [main_model, check_ffmpeg, hav, hpe, hconv, ConvResult.isSuccess]
          | true =>
            cases hs : (convert_m4a_to_mp4 env f outp col res).1.isSuccess with
            | false => simp [main_model, check_ffmpeg, hav, hpe, hs]
            | true => simp [main_model, check_ffmpeg, hav, hpe, hs]

/-- C10: in batch mode (toolchain available, `-d` given, not
`--list-colors`) the exit code is 0 whatever happens: `batch_convert`
returns no value, so per-file failures, a missing directory and an empty
match set never reach the exit status. -/
theorem batch_mode_exits_zero (env : Env) (args : Args) (d : String)
    (h1 : args.list_colors = false) (h2 : check_ffmpeg env = true)
    (h3 : args.directory = some d) :
    (main_model env args).1 = 0 := by
  simp [main_model, h1, h2, h3]

/-- C10 witness: exit 0 both with a missing input directory and with a
batch containing a per-file failure. -/
theorem batch_mode_exits_zero_witness :
    (main_model env_missing ⟨none, none, some "dir", "black", "1920x1080", false⟩).1 = 0 ∧
    (main_model env_batch_demo ⟨none, none, some "dir", "black", "1920x1080", false⟩).1 = 0 :=
  ⟨batch_mode_exits_zero env_missing ⟨none, none, some "dir", "black", "1920x1080", false⟩
      "dir" rfl rfl rfl,
   batch_mode_exits_zero env_batch_demo ⟨none, none, some "dir", "black", "1920x1080", false⟩
      "dir" rfl rfl rfl⟩
